import Mathlib

/-!
Verification of the SQL-analysis composition and reconciliation engine of
`src/wren-ai-service/src/pipelines/generation/sql_explanation.py`.

The Python functions are shallowly embedded as executable Lean definitions:
dynamic dicts become structures/inductives over the node kinds actually
handled by the code, in-place list mutation becomes explicit state passing,
and the argument order of every call site is preserved exactly as written in
the source (including call sites whose positional arguments are swapped).
-/

set_option autoImplicit false

/-! ### Python string formatting helpers -/

/-- The single-quote character, as a string. -/
def squote : String := (Char.ofNat 39).toString

/-- The opening curly brace character, as a string. -/
def lcurly : String := (Char.ofNat 123).toString

/-- The closing curly brace character, as a string. -/
def rcurly : String := (Char.ofNat 125).toString

/-- Python `repr` of a string containing no quote, backslash or non-printable
characters (the only strings exercised below): the text wrapped in single
quotes. -/
def pyStrRepr (s : String) : String := squote ++ s ++ squote

/-- Python `str()` of the two-key dict built by
`_compose_sql_expression_of_filter_type` (insertion order `values` then `id`),
as produced when such a dict is interpolated into an f-string. -/
def pyDictRepr (values id : String) : String :=
  lcurly ++ pyStrRepr "values" ++ ": " ++ pyStrRepr values ++ ", "
    ++ pyStrRepr "id" ++ ": " ++ pyStrRepr id ++ rcurly

/-! ### Filter trees (`_compose_sql_expression_of_filter_type`) -/

/-- A filter analysis node: `type` is `"EXPR"` (leaf with a `node` expression
string), `"AND"`/`"OR"` (internal with `left`/`right`), or anything else
(`other`).  The optional `id` models the presence or absence of the `"id"`
key read by `filter_analysis.get("id", "")`. -/
inductive FilterNode where
  | expr (node : String) (id : Option String)
  | and (left right : FilterNode) (id : Option String)
  | or (left right : FilterNode) (id : Option String)
  | other
  deriving DecidableEq

/-- A value returned by `_compose_sql_expression_of_filter_type`: either a bare
Python string (the `top=False` `EXPR` branch) or the `{"values": ..., "id": ...}`
dict (every other branch). -/
inductive FilterResult where
  | pystr (s : String)
  | unit (values : String) (id : String)
  deriving DecidableEq

/-- How Python's f-string `f"{left_expr} {type} {right_expr}"` renders a
`FilterResult`: a string renders as itself, a dict renders as its `str()`
(= `repr`) form. -/
def FilterResult.fstr : FilterResult → String
  | .pystr s => s
  | .unit v i => pyDictRepr v i

/-- The `id` field of a returned unit (empty for a bare string). -/
def FilterResult.unitId : FilterResult → String
  | .pystr _ => ""
  | .unit _ i => i

/-- Embedding of `_compose_sql_expression_of_filter_type(filter_analysis, top)`
(sql_explanation.py lines 124-148).  Note the `AND`/`OR` branch does not
consult `top`: it always returns the dict, and its f-string interpolates the
recursive results (dicts for nested internal nodes) via `FilterResult.fstr`. -/
def compose_sql_expression_of_filter_type : FilterNode → Bool → FilterResult
  | .expr node id, top =>
      if top then .unit node (id.getD "") else .pystr node
  | .and left right id, _ =>
      .unit ((compose_sql_expression_of_filter_type left false).fstr ++ " AND "
              ++ (compose_sql_expression_of_filter_type right false).fstr)
            (id.getD "")
  | .or left right id, _ =>
      .unit ((compose_sql_expression_of_filter_type left false).fstr ++ " OR "
              ++ (compose_sql_expression_of_filter_type right false).fstr)
            (id.getD "")
  | .other, _ => .unit "" ""

/-- Rendering demanded by the claim: the fully left-to-right infix
concatenation of the leaf expression strings joined by the operator names with
single spaces and no parentheses.  (Stated from the claim's words, for
comparison with the code's behaviour.) -/
def specInfixRender : FilterNode → String
  | .expr node _ => node
  | .and left right _ => specInfixRender left ++ " AND " ++ specInfixRender right
  | .or left right _ => specInfixRender left ++ " OR " ++ specInfixRender right
  | .other => ""

/-- A filter tree whose root has a nested internal node as a child. -/
def nestedAndTree : FilterNode :=
  .and (.and (.expr "a" none) (.expr "b" none) none) (.expr "c" none) none

/-- C2: for the filter tree `(a AND b) AND c` built only from `EXPR` leaves and
`AND` nodes, the composer (with `top = true`) does return a single unit, but its
`values` string is `"{'values': 'a AND b', 'id': ''} AND c"` — the nested
internal node's dict rendered by the f-string — not the claimed left-associated
concatenation `"a AND b AND c"`. -/
theorem c2_filter_nested_repr_bug :
    compose_sql_expression_of_filter_type nestedAndTree true
      = .unit (pyDictRepr "a AND b" "" ++ " AND c") ""
    ∧ pyDictRepr "a AND b" "" ++ " AND c" ≠ specInfixRender nestedAndTree := by
  exact ⟨rfl, by decide⟩

/-- C7 (counterexample): for the filter tree `p AND q` whose root carries id
`"r1"`, the single unit produced with `top = true` does carry the root node's
own id `"r1"` (which is not the empty string) — the `AND`/`OR` branch reads
`filter_analysis.get("id", "")` on the root itself. -/
theorem c7_root_id_counterexample :
    compose_sql_expression_of_filter_type
        (.and (.expr "p" none) (.expr "q" none) (some "r1")) true
      = .unit "p AND q" "r1"
    ∧ ("r1" : String) ≠ "" := by
  exact ⟨rfl, by decide⟩

/-- C7 (amended): when the root of a filter tree is an internal `AND`/`OR`
node, the single unit produced by the composer carries the root node's own id
(`.get("id", "")`, hence `""` when absent); it is only the ids of nested nodes
that are dropped from the unit's `id` field. -/
theorem c7_root_internal_id_preserved (l r : FilterNode) (i : Option String) :
    (compose_sql_expression_of_filter_type (.and l r i) true).unitId = i.getD ""
    ∧ (compose_sql_expression_of_filter_type (.or l r i) true).unitId = i.getD "" :=
  ⟨rfl, rfl⟩

/-! ### Relation trees (`_compose_sql_expression_of_relation_type`) -/

/-- An entry of a join node's `exprSources` list. -/
structure ExprSource where
  expression : String
  sourceDataset : String
  sourceColumn : String
  deriving DecidableEq

/-- The `criteria` dict of a join node (only its `expression` key is read). -/
structure Criteria where
  expression : String
  deriving DecidableEq

/-- The six join kinds; in the source these are the `type` strings ending in
`"_JOIN"`, which are exactly the strings matched by `endswith("_JOIN")`. -/
inductive JoinType where
  | inner_join | left_join | right_join | full_join | cross_join | implicit_join
  deriving DecidableEq

/-- A relation analysis node: a `TABLE` leaf (with `tableName` and optional
`id`), a join (with type, criteria, expression sources, two children and
optional `id`), or a `SUBQUERY`. -/
inductive Relation where
  | table (tableName : String) (id : Option String)
  | join (jtype : JoinType) (criteria : Criteria) (exprSources : List ExprSource)
         (left right : Relation) (id : Option String)
  | subquery
  deriving DecidableEq

/-- The `values` dict of an emitted relation unit: for a `TABLE` it carries the
type tag and table name, for a join the type tag, the criteria's expression
string and the copied `exprSources` entries. -/
inductive RelValues where
  | table (tableName : String)
  | join (jtype : JoinType) (criteria : String) (exprSources : List ExprSource)
  deriving DecidableEq

/-- An emitted relation unit `{"values": ..., "id": ...}`. -/
structure RelUnit where
  values : RelValues
  id : String
  deriving DecidableEq

/-- An element of one of the two Python lists threaded through
`_collect_relations`: the caller's `cte_names` list initially holds strings,
but (because of the swapped recursive-call arguments in the source) unit dicts
can be appended to it, so both lists are modelled with this mixed element
type. -/
inductive CteElem where
  | name (s : String)
  | unit (u : RelUnit)
  deriving DecidableEq

/-- Python's `tableName in cte_names`: membership by equality, where a string
never equals a unit dict. -/
def cteMem (tableName : String) (l : List CteElem) : Bool :=
  l.any fun e =>
    match e with
    | .name s => tableName == s
    | .unit _ => false

/-- Embedding of the inner `_is_subquery_or_has_subquery_child(relation)`
(lines 167-176). -/
def is_subquery_or_has_subquery_child : Relation → Bool
  | .subquery => true
  | .join _ _ _ left right _ =>
      (match left with | .subquery => true | _ => false)
      || (match right with | .subquery => true | _ => false)
  | .table _ _ => false

/-- Embedding of the inner `_collect_relations(relation, result, cte_names,
top_level)` (lines 178-214).  The two in-place-mutated Python lists are passed
and returned explicitly, in the roles (`result`, `cte_names`) they have for
this call.  The recursive call sites in the source (lines 213-214) are
`_collect_relations(child, cte_names, result, top_level=False)`: the two lists
are passed in swapped positions, which is reproduced here verbatim, so a
callee's returned `result` component is this caller's `cte_names` list and
vice versa. -/
def collect_relations :
    Relation → List CteElem → List CteElem → Bool → List CteElem × List CteElem
  | rel@(.join jtype criteria exprSources left right id), result, cte_names, _ =>
      if is_subquery_or_has_subquery_child rel then (result, cte_names)
      else
        let result1 :=
          result ++ [CteElem.unit ⟨.join jtype criteria.expression exprSources, id.getD ""⟩]
        let p1 := collect_relations left cte_names result1 false
        let p2 := collect_relations right p1.1 p1.2 false
        (p2.2, p2.1)
  | .table tableName id, result, cte_names, top_level =>
      if top_level then
        if cteMem tableName cte_names then (result, cte_names)
        else (result ++ [CteElem.unit ⟨.table tableName, id.getD ""⟩], cte_names)
      else (result, cte_names)
  | .subquery, result, cte_names, _ => (result, cte_names)

/-- Embedding of `_compose_sql_expression_of_relation_type(relation, cte_names)`
(lines 164-218): run the collector on an empty `results` list and the caller's
`cte_names` and return the `results` list. -/
def compose_sql_expression_of_relation_type
    (relation : Relation) (cte_names : List String) : List CteElem :=
  (collect_relations relation [] (cte_names.map CteElem.name) true).1

/-- Number of join nodes in a relation tree (stated from the claim's words). -/
def joinNodeCount : Relation → Nat
  | .table _ _ => 0
  | .subquery => 0
  | .join _ _ _ left right _ => 1 + joinNodeCount left + joinNodeCount right

/-- Number of top-level `TABLE` leaves not named in `cte_names` — only the root
of the tree is ever visited with `top_level` true (stated from the claim's
words). -/
def topLevelTableUnits (relation : Relation) (cte_names : List String) : Nat :=
  match relation with
  | .table tableName _ => if tableName ∈ cte_names then 0 else 1
  | _ => 0

/-- True when the tree contains no `SUBQUERY` node anywhere. -/
def subqueryFree : Relation → Bool
  | .table _ _ => true
  | .subquery => false
  | .join _ _ _ left right _ => subqueryFree left && subqueryFree right

/-- A subquery-free relation tree with a nested join:
`INNER_JOIN(INNER_JOIN(TABLE a, TABLE b), TABLE c)`. -/
def nestedJoinTree : Relation :=
  .join .inner_join ⟨"c0"⟩ []
    (.join .inner_join ⟨"c1"⟩ [] (.table "a" none) (.table "b" none) none)
    (.table "c" none) none

/-- C1: on the subquery-free tree `INNER_JOIN(INNER_JOIN(TABLE a, TABLE b),
TABLE c)` with `cte_names = []`, the composer returns only 1 unit, while the
tree has 2 join nodes and 0 top-level table leaves — the swapped arguments of
the recursive calls send the nested join's unit into the `cte_names` list
instead of the `results` list. -/
theorem c1_join_unit_count_bug :
    subqueryFree nestedJoinTree = true
    ∧ (compose_sql_expression_of_relation_type nestedJoinTree []).length = 1
    ∧ joinNodeCount nestedJoinTree + topLevelTableUnits nestedJoinTree [] = 2 := by
  refine ⟨rfl, rfl, rfl⟩

/-- C3: calling the relation composer on the same nested-join tree with
`cte_names = ["x"]` leaves the caller's `cte_names` list changed: the nested
join's unit dict has been appended to it, so it is no longer `["x"]`. -/
theorem c3_cte_names_mutation_bug :
    (collect_relations nestedJoinTree [] [CteElem.name "x"] true).2
      = [CteElem.name "x", CteElem.unit ⟨.join .inner_join "c1" [], ""⟩]
    ∧ (collect_relations nestedJoinTree [] [CteElem.name "x"] true).2
      ≠ [CteElem.name "x"] := by
  exact ⟨rfl, by decide⟩

/-! ### Select items (`_compose_sql_expression_of_select_type`) -/

/-- An entry of the `selected_data_sources` inner lists (only `sourceDataset`
and `sourceColumn` are read). -/
structure DataSource where
  sourceDataset : String
  sourceColumn : String
  deriving DecidableEq

/-- The two string-valued boolean properties of a select item. -/
structure SelectProperties where
  includeFunctionCall : String
  includeMathematicalOperation : String
  deriving DecidableEq

/-- A raw select item; `exprSources` is `none` when the `"exprSources"` key is
absent (`"exprSources" in select_item` fails). -/
structure SelectItem where
  alias_ : String
  expression : String
  exprSources : Option (List ExprSource)
  properties : SelectProperties
  id : Option String
  deriving DecidableEq

/-- The `values` dict of an emitted select unit. -/
structure SelectValues where
  alias_ : String
  expression : String
  deriving DecidableEq

/-- An emitted select unit `{"values": {...}, "id": ...}`. -/
structure SelectUnit where
  values : SelectValues
  id : String
  deriving DecidableEq

/-- The two-key result dict of `_compose_sql_expression_of_select_type`. -/
structure SelectItemsBundle where
  withFunctionCallOrMathematicalOperation : List SelectUnit
  withoutFunctionCallOrMathematicalOperation : List SelectUnit
  deriving DecidableEq

/-- Embedding of the inner
`_is_select_item_existed_in_selected_data_sources(select_item,
selected_data_sources)` (lines 224-238): some entry of some inner list has the
same dataset and column as the first `exprSources` entry of the item (false
whenever `exprSources` is absent or empty). -/
def is_select_item_existed_in_selected_data_sources
    (select_item : SelectItem) (selected_data_sources : List (List DataSource)) : Bool :=
  selected_data_sources.any fun selected_data_source =>
    selected_data_source.any fun data_source =>
      match select_item.exprSources with
      | some (e :: _) =>
          e.sourceDataset == data_source.sourceDataset
            && e.sourceColumn == data_source.sourceColumn
      | _ => false

/-- The unit appended for a retained select item. -/
def select_item_unit (select_item : SelectItem) : SelectUnit :=
  ⟨⟨select_item.alias_, select_item.expression⟩, select_item.id.getD ""⟩

/-- The loop body of `_compose_sql_expression_of_select_type` (lines 245-271). -/
def select_step (selected_data_sources : List (List DataSource))
    (result : SelectItemsBundle) (select_item : SelectItem) : SelectItemsBundle :=
  if !(is_select_item_existed_in_selected_data_sources select_item selected_data_sources) then
    if select_item.properties.includeFunctionCall == "true"
        || select_item.properties.includeMathematicalOperation == "true" then
      { result with
          withFunctionCallOrMathematicalOperation :=
            result.withFunctionCallOrMathematicalOperation ++ [select_item_unit select_item] }
    else
      { result with
          withoutFunctionCallOrMathematicalOperation :=
            result.withoutFunctionCallOrMathematicalOperation ++ [select_item_unit select_item] }
  else result

/-- Embedding of `_compose_sql_expression_of_select_type(select_items,
selected_data_sources)` (lines 221-273). -/
def compose_sql_expression_of_select_type
    (select_items : List SelectItem)
    (selected_data_sources : List (List DataSource)) : SelectItemsBundle :=
  select_items.foldl (select_step selected_data_sources) ⟨[], []⟩

/-- The fold of `select_step` over any accumulator appends, to each of the two
sub-lists, the units of the items retained for that sub-list in input order. -/
theorem select_foldl_general (selected_data_sources : List (List DataSource))
    (select_items : List SelectItem) :
    ∀ acc : SelectItemsBundle,
      select_items.foldl (select_step selected_data_sources) acc
        = ⟨acc.withFunctionCallOrMathematicalOperation
              ++ ((select_items.filter fun it =>
                    !(is_select_item_existed_in_selected_data_sources it selected_data_sources)
                      && (it.properties.includeFunctionCall == "true"
                          || it.properties.includeMathematicalOperation == "true")).map
                  select_item_unit),
           acc.withoutFunctionCallOrMathematicalOperation
              ++ ((select_items.filter fun it =>
                    !(is_select_item_existed_in_selected_data_sources it selected_data_sources)
                      && !(it.properties.includeFunctionCall == "true"
                          || it.properties.includeMathematicalOperation == "true")).map
                  select_item_unit)⟩ := by
  induction select_items with
  | nil => intro acc; simp [List.filter]
  | cons it rest ih =>
      intro acc
      cases hex : is_select_item_existed_in_selected_data_sources it selected_data_sources
      · cases h1 : (it.properties.includeFunctionCall == "true")
        · cases h2 : (it.properties.includeMathematicalOperation == "true")
          · simp [select_step, hex, h1, h2, ih, List.filter_cons]
          · simp [select_step, hex, h1, h2, ih, List.filter_cons]
        · simp [select_step, hex, h1, ih, List.filter_cons]
      · simp [select_step, hex, ih, List.filter_cons]

/-- C8: a select item contributes a unit exactly when its first `exprSources`
entry (if any) matches no `(sourceDataset, sourceColumn)` pair of the
selected-data-sources lists; every retained item goes to the function-call/math
sub-list exactly when one of the two string properties equals `"true"` and
otherwise to the other sub-list, each sub-list in input order; and the
exclusion test is equivalent to existence of a matching pair. -/
theorem c8_select_partition_characterisation
    (select_items : List SelectItem) (selected_data_sources : List (List DataSource)) :
    (compose_sql_expression_of_select_type select_items
        selected_data_sources).withFunctionCallOrMathematicalOperation
      = ((select_items.filter fun it =>
            !(is_select_item_existed_in_selected_data_sources it selected_data_sources)
              && (it.properties.includeFunctionCall == "true"
                  || it.properties.includeMathematicalOperation == "true")).map
          select_item_unit)
    ∧ (compose_sql_expression_of_select_type select_items
          selected_data_sources).withoutFunctionCallOrMathematicalOperation
      = ((select_items.filter fun it =>
            !(is_select_item_existed_in_selected_data_sources it selected_data_sources)
              && !(it.properties.includeFunctionCall == "true"
                  || it.properties.includeMathematicalOperation == "true")).map
          select_item_unit)
    ∧ (∀ it : SelectItem,
        is_select_item_existed_in_selected_data_sources it selected_data_sources = true
          ↔ ∃ l ∈ selected_data_sources, ∃ d ∈ l,
              (match it.exprSources with
                | some (e :: _) =>
                    e.sourceDataset == d.sourceDataset && e.sourceColumn == d.sourceColumn
                | _ => false) = true) := by
  refine ⟨?_, ?_, ?_⟩
  · rw [compose_sql_expression_of_select_type, select_foldl_general]
    simp
  · rw [compose_sql_expression_of_select_type, select_foldl_general]
    simp
  · intro it
    simp [is_select_item_existed_in_selected_data_sources, List.any_eq_true]

/-! ### Preprocessed bundles and the prompts stage -/

/-- A `{"values": <string>, "id": <string>}` unit, as emitted for filters,
group-by keys and sortings. -/
structure IdValues where
  values : String
  id : String
  deriving DecidableEq

/-- One preprocessed SQL-analysis bundle, with the five keys in the insertion
order used by `SQLAnalysisPreprocessor.run` (lines 320-370): `filter`,
`groupByKeys`, `relation`, `selectItems`, `sortings`.  `filter = none` models
the empty dict `{}` stored when the `"filter"` key is absent. -/
structure Bundle where
  filter : Option IdValues
  groupByKeys : List IdValues
  relation : List RelUnit
  selectItems : SelectItemsBundle
  sortings : List IdValues
  deriving DecidableEq

/-- The rendered payload of one emitted explanation request: the category's
bare `values` with the `id` wrappers stripped. -/
inductive Payload where
  | filterP (values : String)
  | listP (values : List String)
  | relationP (values : List RelValues)
  | selectP (withFn withoutFn : List SelectValues)
  deriving DecidableEq

/-- One explanation request produced by the `prompts` stage: the category name,
its stripped payload, and the category-specific instruction hint.  (The
question/sql/summary context fields are attached verbatim by the external
prompt builder and carry no structure of their own.) -/
structure PromptRequest where
  sql_analysis_type : String
  sql_analysis_result : Payload
  explanation_hint : String
  deriving DecidableEq

/-- The value of one bundle category, as seen by the loop over
`preprocessed_sql_analysis_result.items()` in `prompts` (lines 556-589). -/
inductive CatValue where
  | filterC (v : Option IdValues)
  | keysC (v : List IdValues)
  | relationC (v : List RelUnit)
  | selectC (v : SelectItemsBundle)
  deriving DecidableEq

/-- The `(key, value)` pairs of a bundle in dict insertion order — the order in
which `SQLAnalysisPreprocessor.run` inserts the five keys. -/
def bundleItems (b : Bundle) : List (String × CatValue) :=
  [("filter", .filterC b.filter),
   ("groupByKeys", .keysC b.groupByKeys),
   ("relation", .relationC b.relation),
   ("selectItems", .selectC b.selectItems),
   ("sortings", .keysC b.sortings)]

/-- Python truthiness of a category value: an absent filter is the empty dict
(falsy), a present filter dict is non-empty (truthy), a list is truthy iff
non-empty, and the `selectItems` value is always the two-key dict, hence always
truthy — even when both sub-lists are empty. -/
def catTruthy : CatValue → Bool
  | .filterC none => false
  | .filterC (some _) => true
  | .keysC v => !v.isEmpty
  | .relationC v => !v.isEmpty
  | .selectC _ => true

/-- The rendered payload appended to
`preprocessed_sql_analysis_results_with_values` for one truthy category: lists
are stripped to their `values` entries, the filter dict to its `values` string,
and `selectItems` to its two sub-lists of bare `values`.  (Only applied to
truthy values; the `filterC none` case is unreachable there.) -/
def catValues : CatValue → Payload
  | .filterC none => .filterP ""
  | .filterC (some u) => .filterP u.values
  | .keysC v => .listP (v.map IdValues.values)
  | .relationC v => .relationP (v.map RelUnit.values)
  | .selectC s =>
      .selectP (s.withFunctionCallOrMathematicalOperation.map SelectUnit.values)
               (s.withoutFunctionCallOrMathematicalOperation.map SelectUnit.values)

/-- Embedding of `get_sql_explanation_prompt_given_analysis_type` (lines
286-297). -/
def get_sql_explanation_prompt_given_analysis_type (sql_analysis_type : String) : String :=
  if sql_analysis_type == "filter" then
    "Explain the filter condition in the SQL query."
  else if sql_analysis_type == "groupByKeys" then
    "Explain the group by keys in the SQL query."
  else if sql_analysis_type == "relation" then
    "Explain the relation in the SQL query."
  else if sql_analysis_type == "selectItems" then
    "Explain the select items in the SQL query."
  else if sql_analysis_type == "sortings" then
    "Explain the sortings in the SQL query."
  else ""

/-- The loop body of `prompts`: when the category value is truthy, append the
key to `sql_analysis_types` and the stripped payload to
`preprocessed_sql_analysis_results_with_values`. -/
def prompts_step (acc : List String × List Payload) (kv : String × CatValue) :
    List String × List Payload :=
  if catTruthy kv.2 then (acc.1 ++ [kv.1], acc.2 ++ [catValues kv.2]) else acc

/-- Embedding of the `prompts` pipeline step (lines 540-608): build the two
parallel lists over every bundle, then zip them into one request per emitted
category, attaching the per-category instruction hint. -/
def prompts (bundles : List Bundle) : List PromptRequest :=
  let tv := bundles.foldl (fun acc b => (bundleItems b).foldl prompts_step acc) ([], [])
  (tv.1.zip tv.2).map fun p =>
    ⟨p.1, p.2, get_sql_explanation_prompt_given_analysis_type p.1⟩

/-- The request built for one emitted `(key, payload)` pair. -/
def mkRequest (k : String) (p : Payload) : PromptRequest :=
  ⟨k, p, get_sql_explanation_prompt_given_analysis_type k⟩

/-- The `(key, payload)` pairs a single bundle contributes. -/
def emitted (b : Bundle) : List (String × Payload) :=
  ((bundleItems b).filter fun kv => catTruthy kv.2).map fun kv => (kv.1, catValues kv.2)

/-- The per-bundle request list asserted by the amended claim: one request per
truthy category in the fixed order `filter, groupByKeys, relation, selectItems,
sortings`, where `selectItems` is always emitted (its value is a two-key dict,
truthy even with both sub-lists empty).  (Stated from the amended claim's
words, for comparison with the code.) -/
def claimed_bundle_requests (b : Bundle) : List PromptRequest :=
  (match b.filter with
    | none => []
    | some u => [mkRequest "filter" (.filterP u.values)])
  ++ (if b.groupByKeys.isEmpty then []
      else [mkRequest "groupByKeys" (.listP (b.groupByKeys.map IdValues.values))])
  ++ (if b.relation.isEmpty then []
      else [mkRequest "relation" (.relationP (b.relation.map RelUnit.values))])
  ++ [mkRequest "selectItems"
        (.selectP (b.selectItems.withFunctionCallOrMathematicalOperation.map SelectUnit.values)
                  (b.selectItems.withoutFunctionCallOrMathematicalOperation.map SelectUnit.values))]
  ++ (if b.sortings.isEmpty then []
      else [mkRequest "sortings" (.listP (b.sortings.map IdValues.values))])

/-- Folding `prompts_step` over any item list appends the truthy keys and their
payloads to the two accumulator lists, in order. -/
theorem foldl_prompts_step (items : List (String × CatValue)) :
    ∀ acc : List String × List Payload,
      items.foldl prompts_step acc
        = (acc.1 ++ (((items.filter fun kv => catTruthy kv.2).map fun kv => (kv.1, catValues kv.2)).map Prod.fst),
           acc.2 ++ (((items.filter fun kv => catTruthy kv.2).map fun kv => (kv.1, catValues kv.2)).map Prod.snd)) := by
  induction items with
  | nil => intro acc; simp [List.filter]
  | cons kv rest ih =>
      intro acc
      cases h : catTruthy kv.2
      · simp [prompts_step, h, ih, List.filter_cons]
      · simp [prompts_step, h, ih, List.filter_cons]

/-- Folding the per-bundle loop over any bundle list appends, per bundle, that
bundle's emitted keys and payloads. -/
theorem foldl_prompts_bundles (bundles : List Bundle) :
    ∀ acc : List String × List Payload,
      bundles.foldl (fun acc b => (bundleItems b).foldl prompts_step acc) acc
        = (acc.1 ++ ((bundles.map emitted).flatten.map Prod.fst),
           acc.2 ++ ((bundles.map emitted).flatten.map Prod.snd)) := by
  induction bundles with
  | nil => intro acc; simp
  | cons b rest ih =>
      intro acc
      rw [List.foldl_cons, ih]
      simp [foldl_prompts_step, emitted, List.append_assoc]

/-- The emitted pairs of one bundle, turned into requests, are exactly the
claimed per-bundle request list. -/
theorem emitted_map_eq_claimed (b : Bundle) :
    (emitted b).map (fun kv => mkRequest kv.1 kv.2) = claimed_bundle_requests b := by
  rcases b with ⟨f, g, rel, sel, srt⟩
  cases f <;> cases hg : g.isEmpty <;> cases hr : rel.isEmpty <;> cases hs : srt.isEmpty <;>
    simp [emitted, bundleItems, catTruthy, catValues, claimed_bundle_requests, mkRequest,
      hg, hr, hs, List.filter_cons, List.filter_nil]

/-- C4 (amended): the prompts stage emits, for each preprocessed bundle in
order, exactly one request per truthy category, iterating the five categories
in the fixed order `filter, groupByKeys, relation, selectItems, sortings`;
the `filter` category is truthy when present, the three list categories when
non-empty, and `selectItems` always (its two-key dict value is truthy even when
both sub-lists are empty). -/
theorem c4_prompts_per_truthy_category (bundles : List Bundle) :
    prompts bundles = (bundles.map claimed_bundle_requests).flatten := by
  rw [prompts]
  rw [foldl_prompts_bundles]
  simp only [List.nil_append, List.zip_map']
  rw [List.map_map]
  have h : ((bundles.map emitted).flatten.map fun kv => mkRequest kv.1 kv.2)
      = (bundles.map claimed_bundle_requests).flatten := by
    rw [List.map_flatten, List.map_map]
    congr 1
    exact List.map_congr_left fun b _ => emitted_map_eq_claimed b
  simpa [Function.comp, mkRequest] using h

/-- C4 (counterexample): a bundle with every category empty — in particular
`selectItems` with both sub-lists empty — still yields one request, for
`selectItems`, contrary to the claim that it yields none. -/
theorem c4_empty_bundle_counterexample :
    prompts [{ filter := none, groupByKeys := [], relation := [],
               selectItems := ⟨[], []⟩, sortings := [] }]
      = [⟨"selectItems", .selectP [] [],
          "Explain the select items in the SQL query."⟩]
    ∧ prompts [{ filter := none, groupByKeys := [], relation := [],
                 selectItems := ⟨[], []⟩, sortings := [] }] ≠ [] := by
  exact ⟨rfl, by decide⟩

/-! ### The result reconciler (`SQLExplanationGenerationPostProcessor.run`) -/

/-- A JSON value as it reaches `_extract_to_str` or the filter truthiness test:
a string, a list of strings, or some other non-empty value. -/
inductive JVal where
  | jstr (s : String)
  | jlistStr (xs : List String)
  | jother
  deriving DecidableEq

/-- Embedding of `_extract_to_str(data)` (lines 300-306): the first element of
a non-empty list, a string itself, anything else the empty string. -/
def extract_to_str : JVal → String
  | .jlistStr (x :: _) => x
  | .jstr s => s
  | _ => ""

/-- Python truthiness of a reply value: empty string and empty list are falsy;
`jother` stands for other (non-empty, truthy) JSON values. -/
def jvalTruthy : JVal → Bool
  | .jstr s => !(s == "")
  | .jlistStr xs => !xs.isEmpty
  | .jother => true

/-- The reply's `selectItems` dict, with each sub-list key possibly absent
(read through `.get(..., [])`).  The dict is modelled as carrying only these
two keys. -/
structure SelectReply where
  withFunctionCallOrMathematicalOperation : Option (List JVal)
  withoutFunctionCallOrMathematicalOperation : Option (List JVal)
  deriving DecidableEq

/-- The parsed `results` object of one reply, each category key possibly
absent. -/
structure ReplyResults where
  filter : Option JVal
  groupByKeys : Option (List JVal)
  relation : Option (List JVal)
  selectItems : Option SelectReply
  sortings : Option (List JVal)
  deriving DecidableEq

/-- One element of `generates`: either its `generate["replies"][0]` parses to a
JSON document with a `results` object of the expected shape (`ok`), or reading
or parsing it raises — malformed JSON, missing `"results"` key, wrong type
(`bad`). -/
inductive GenReply where
  | ok (results : ReplyResults)
  | bad
  deriving DecidableEq

/-- One finalized explanation record, as appended to `results` (the payload's
`type` tag is the constructor; for relations the unit's `values` fields are
merged in whole; select records carry the extra boolean). -/
inductive Record where
  | filterRec (id : String) (expression : String) (explanation : String)
  | groupByRec (id : String) (expression : String) (explanation : String)
  | relationRec (id : String) (values : RelValues) (explanation : String)
  | selectRec (id : String) (alias_ : String) (expression : String)
              (isFunctionCallOrMathematicalOperation : Bool) (explanation : String)
  | sortingRec (id : String) (expression : String) (explanation : String)
  deriving DecidableEq

/-- Truthiness of `preprocessed.get("filter", {}) and reply.get("filter", {})`:
the preprocessed filter dict is truthy when present, the reply value by Python
truthiness. -/
def filter_matched (pre : Bundle) (r : ReplyResults) : Bool :=
  pre.filter.isSome
    && (match r.filter with | some v => jvalTruthy v | none => false)

/-- Truthiness of the two `groupByKeys` values. -/
def groupByKeys_matched (pre : Bundle) (r : ReplyResults) : Bool :=
  !pre.groupByKeys.isEmpty
    && (match r.groupByKeys with | some l => !l.isEmpty | none => false)

/-- Truthiness of the two `relation` values. -/
def relation_matched (pre : Bundle) (r : ReplyResults) : Bool :=
  !pre.relation.isEmpty
    && (match r.relation with | some l => !l.isEmpty | none => false)

/-- Truthiness of the two `selectItems` values: the preprocessed side is always
the two-key dict, hence always truthy; the reply side is truthy when the dict
is present and non-empty. -/
def selectItems_matched (pre : Bundle) (r : ReplyResults) : Bool :=
  (match r.selectItems with
    | some s => s.withFunctionCallOrMathematicalOperation.isSome
        || s.withoutFunctionCallOrMathematicalOperation.isSome
    | none => false)

/-- Truthiness of the two `sortings` values. -/
def sortings_matched (pre : Bundle) (r : ReplyResults) : Bool :=
  !pre.sortings.isEmpty
    && (match r.sortings with | some l => !l.isEmpty | none => false)

/-- Embedding of the per-reply `if/elif` chain of
`SQLExplanationGenerationPostProcessor.run` (lines 396-516): pick the first
category non-empty on both sides, in the fixed order `filter, groupByKeys,
relation, selectItems, sortings`, and emit its records by positional `zip`. -/
def match_reply (pre : Bundle) (r : ReplyResults) : List Record :=
  if filter_matched pre r then
    [.filterRec (pre.filter.getD ⟨"", ""⟩).id (pre.filter.getD ⟨"", ""⟩).values
        (extract_to_str (r.filter.getD .jother))]
  else if groupByKeys_matched pre r then
    (pre.groupByKeys.zip (r.groupByKeys.getD [])).map fun p =>
      .groupByRec p.1.id p.1.values (extract_to_str p.2)
  else if relation_matched pre r then
    (pre.relation.zip (r.relation.getD [])).map fun p =>
      .relationRec p.1.id p.1.values (extract_to_str p.2)
  else if selectItems_matched pre r then
    ((pre.selectItems.withFunctionCallOrMathematicalOperation.zip
        ((r.selectItems.getD ⟨none, none⟩).withFunctionCallOrMathematicalOperation.getD [])).map
      fun p => Record.selectRec p.1.id p.1.values.alias_ p.1.values.expression true
                 (extract_to_str p.2))
    ++ ((pre.selectItems.withoutFunctionCallOrMathematicalOperation.zip
        ((r.selectItems.getD ⟨none, none⟩).withoutFunctionCallOrMathematicalOperation.getD [])).map
      fun p => Record.selectRec p.1.id p.1.values.alias_ p.1.values.expression false
                 (extract_to_str p.2))
  else if sortings_matched pre r then
    (pre.sortings.zip (r.sortings.getD [])).map fun p =>
      .sortingRec p.1.id p.1.values (extract_to_str p.2)
  else []

/-- The `for generate in generates` loop inside the `try`: a `bad` reply raises
while being parsed, the exception is caught at the top level, and whatever
records were accumulated so far are returned. -/
def post_process_run_loop (pre : Bundle) : List GenReply → List Record → List Record
  | [], results => results
  | .bad :: _, results => results
  | .ok r :: rest, results => post_process_run_loop pre rest (results ++ match_reply pre r)

/-- Embedding of `SQLExplanationGenerationPostProcessor.run(generates,
preprocessed_sql_analysis_results)` (lines 380-520): with no preprocessed
bundle the loop body is skipped entirely; otherwise only the first bundle is
used, and the reply loop runs until it ends or a reply raises. -/
def post_processor_run (generates : List GenReply)
    (preprocessed_sql_analysis_results : List Bundle) : List Record :=
  match preprocessed_sql_analysis_results with
  | [] => []
  | pre :: _ => post_process_run_loop pre generates []

/-- The reply loop stops at the first `bad` reply, keeping everything
accumulated before it, whether or not the prefix itself contains a `bad`
reply. -/
theorem post_process_run_loop_stops_at_bad (pre : Bundle) :
    ∀ (gens rest : List GenReply) (acc : List Record),
      post_process_run_loop pre (gens ++ .bad :: rest) acc
        = post_process_run_loop pre gens acc
  | [], _, _ => rfl
  | .bad :: _, _, _ => rfl
  | .ok r :: t, rest, acc =>
      post_process_run_loop_stops_at_bad pre t rest (acc ++ match_reply pre r)

/-- C6: a reply whose parsing or matching raises does not propagate the
exception: the run returns exactly the records accumulated from the replies
processed before the failure point, and everything after the failing reply is
ignored. -/
theorem c6_partial_results_on_bad_reply
    (preprocessed_sql_analysis_results : List Bundle)
    (gens rest : List GenReply) :
    post_processor_run (gens ++ .bad :: rest) preprocessed_sql_analysis_results
      = post_processor_run gens preprocessed_sql_analysis_results := by
  cases preprocessed_sql_analysis_results with
  | nil => rfl
  | cons pre _ => exact post_process_run_loop_stops_at_bad pre gens rest []

/-- C10: with an empty preprocessed-bundle list, the run returns the empty
result list whatever the replies are — no reply content, however malformed, is
ever examined. -/
theorem c10_empty_bundles_empty_results (generates : List GenReply) :
    post_processor_run generates [] = [] := rfl

/-- C5: whenever the filter category does not match and the reply is dispatched
to `groupByKeys`, `relation` or `sortings`, the records are exactly the
positional zip of that category's bundle units with its reply explanations —
unit `i` paired with explanation `i` in discovery order — so exactly
`min n m` records are emitted, surplus on either side silently dropped. -/
theorem c5_positional_zip_truncation (pre : Bundle) (r : ReplyResults)
    (hf : filter_matched pre r = false) :
    (groupByKeys_matched pre r = true →
        match_reply pre r
          = ((pre.groupByKeys.zip (r.groupByKeys.getD [])).map fun p =>
              Record.groupByRec p.1.id p.1.values (extract_to_str p.2))
        ∧ (match_reply pre r).length
            = min pre.groupByKeys.length (r.groupByKeys.getD []).length)
    ∧ (groupByKeys_matched pre r = false → relation_matched pre r = true →
        match_reply pre r
          = ((pre.relation.zip (r.relation.getD [])).map fun p =>
              Record.relationRec p.1.id p.1.values (extract_to_str p.2))
        ∧ (match_reply pre r).length
            = min pre.relation.length (r.relation.getD []).length)
    ∧ (groupByKeys_matched pre r = false → relation_matched pre r = false →
        selectItems_matched pre r = false → sortings_matched pre r = true →
        match_reply pre r
          = ((pre.sortings.zip (r.sortings.getD [])).map fun p =>
              Record.sortingRec p.1.id p.1.values (extract_to_str p.2))
        ∧ (match_reply pre r).length
            = min pre.sortings.length (r.sortings.getD []).length) := by
  refine ⟨fun hg => ?_, fun hg hr => ?_, fun hg hr hs hso => ?_⟩
  · have hm : match_reply pre r
        = ((pre.groupByKeys.zip (r.groupByKeys.getD [])).map fun p =>
            Record.groupByRec p.1.id p.1.values (extract_to_str p.2)) := by
      simp [match_reply, hf, hg]
    exact ⟨hm, by simp [hm, List.length_zip]⟩
  · have hm : match_reply pre r
        = ((pre.relation.zip (r.relation.getD [])).map fun p =>
            Record.relationRec p.1.id p.1.values (extract_to_str p.2)) := by
      simp [match_reply, hf, hg, hr]
    exact ⟨hm, by simp [hm, List.length_zip]⟩
  · have hm : match_reply pre r
        = ((pre.sortings.zip (r.sortings.getD [])).map fun p =>
            Record.sortingRec p.1.id p.1.values (extract_to_str p.2)) := by
      simp [match_reply, hf, hg, hr, hs, hso]
    exact ⟨hm, by simp [hm, List.length_zip]⟩

/-- A bundle with two group-by units and nothing else. -/
def gbkBundleExample : Bundle :=
  { filter := none, groupByKeys := [⟨"g1", "i1"⟩, ⟨"g2", "i2"⟩], relation := [],
    selectItems := ⟨[], []⟩, sortings := [] }

/-- A reply carrying a single `groupByKeys` explanation. -/
def gbkReplyExample : ReplyResults :=
  { filter := none, groupByKeys := some [.jstr "e1"], relation := none,
    selectItems := none, sortings := none }

/-- C5 witness: two bundle units against one reply explanation yield exactly
`min 2 1 = 1` record, pairing the first unit with the first explanation. -/
theorem c5_positional_zip_truncation_witness :
    filter_matched gbkBundleExample gbkReplyExample = false
    ∧ groupByKeys_matched gbkBundleExample gbkReplyExample = true
    ∧ match_reply gbkBundleExample gbkReplyExample = [.groupByRec "i1" "g1" "e1"]
    ∧ (match_reply gbkBundleExample gbkReplyExample).length
        = min gbkBundleExample.groupByKeys.length
            ((gbkReplyExample.groupByKeys.getD []).length) := by
  refine ⟨rfl, rfl, by decide,
    ((c5_positional_zip_truncation gbkBundleExample gbkReplyExample rfl).1 rfl).2⟩
